import Mathlib

/-!
Verification of the jitter-buffer / sync core of `src/player.c` (slave-clocked
ALAC stream player).  The definitions below are a shallow embedding of the C
source: 16-bit sequence numbers and 32-bit RTP timestamps are `Nat` with
explicit `% 2^16` / `% 2^32`, C `short`/`long` arithmetic is `Int` with
explicit truncation (`toShort`), C `/` on signed integers is `Int.tdiv`
(truncation toward zero) and arithmetic right shift is `Int.fdiv` by a power
of two.  Stateful code is modelled by explicit state passing; calls to the
external collaborators (`rtp_request_resend`, `config.output->play`,
`player_flush`) are recorded in logs inside the state.
-/

/-! ## Sequence arithmetic (player.c lines 151-223) -/

/-- BUFFER_FRAMES, the ring size (a power of two). -/
def BUFFER_FRAMES : Nat := 512

/-- BUFIDX(seqno) = ((seq_t)(seqno)) % BUFFER_FRAMES; seq_t is a 16-bit value. -/
def BUFIDX (seqno : Nat) : Nat := seqno % 65536 % BUFFER_FRAMES

/-- SUCCESSOR: p = x & 0xffff; p += 1; p = p & 0xffff. -/
def SUCCESSOR (x : Nat) : Nat := (x % 65536 + 1) % 65536

/-- PREDECESSOR: p = (x & 0xffff) + 0x10000; p -= 1; p = p & 0xffff. -/
def PREDECESSOR (x : Nat) : Nat := (x % 65536 + 65536 - 1) % 65536

/-- ORDINATE: the distance of seqno `x` up from the anchor `ab_read`, taking
wrap into account.  In C: t = (p + 0x10000 - q) & 0xffff; if (t >= 32767)
t -= 65536.  The anchor (the global `ab_read`) is passed explicitly. -/
def ORDINATE (ab_read x : Nat) : Int :=
  let t : Nat := (x % 65536 + 65536 - ab_read % 65536) % 65536
  if 32767 ≤ t then (t : Int) - 65536 else (t : Int)

/-- seq_diff: ORDINATE(b) - ORDINATE(a), anchored at `ab_read`. -/
def seq_diff (ab_read a b : Nat) : Int := ORDINATE ab_read b - ORDINATE ab_read a

/-- seq_order: true iff the second seqno is after the first
(ORDINATE(b) - ORDINATE(a) > 0), anchored at `ab_read`. -/
def seq_order (ab_read a b : Nat) : Prop := 0 < ORDINATE ab_read b - ORDINATE ab_read a

instance (r a b : Nat) : Decidable (seq_order r a b) := by
  unfold seq_order; infer_instance

/-- seq_sum: (a + b) & 0xffff. -/
def seq_sum (a b : Nat) : Nat := (a + b) % 65536

/-- seq32_order: true iff `b` is strictly after `a` on the wrapping 32-bit
timestamp line, i.e. `a ≠ b` and bit 31 of the two's-complement difference
`b - a` is clear.  For `a, b < 2^32` that bit is clear exactly when
`(b - a) mod 2^32 < 2^31`. -/
def seq32_order (a b : Nat) : Prop :=
  a ≠ b ∧ (b % 4294967296 + 4294967296 - a % 4294967296) % 4294967296 < 2147483648

instance (a b : Nat) : Decidable (seq32_order a b) := by
  unfold seq32_order; infer_instance

/-! ## Volume, dither, interpolation (player.c lines 374-392, 726-775) -/

/-- Conversion of an integer to a C `short` (two's-complement wrap into
[-32768, 32767]), used for implicit narrowing conversions. -/
def toShort (v : Int) : Int :=
  if 32768 ≤ v % 65536 then v % 65536 - 65536 else v % 65536

/-- lcg_rand: lcg_prev = lcg_prev * 69069 + 3 (64-bit unsigned); the low 16
bits are returned as a C short.  Returns the new LCG state and the sample. -/
def lcg_rand (lcg_prev : Nat) : Nat × Int :=
  let p := (lcg_prev * 69069 + 3) % 18446744073709551616
  (p, toShort (p % 65536))

/-- dithered_vol: out = sample * fix_volume; if fix_volume < 0x10000 the
triangular dither `+ rand_a - rand_b` is added, where `rand_b` reads the
uninitialized local `rand_a` (modelled by the threaded `junk` value, which in
practice holds the previous call's `rand_a`); the result is `out >> 16`
narrowed to `short`.  Returns (sample, new LCG state, new junk value). -/
def dithered_vol (fix_volume sample : Int) (lcg : Nat) (junk : Int) :
    Int × Nat × Int :=
  let out := sample * fix_volume
  if fix_volume < 65536 then
    let rand_b := junk
    let r := lcg_rand lcg
    let out2 := out + r.2 - rand_b
    (toShort (out2.fdiv 65536), r.1, r.2)
  else
    (toShort (out.fdiv 65536), lcg, junk)

/-- Map `dithered_vol` over a list of samples, threading the LCG state and
the junk value left to right (the order the C loops emit samples). -/
def dv_list (fix_volume : Int) : List Int → Nat → Int → List Int × Nat × Int
  | [], lcg, junk => ([], lcg, junk)
  | x :: xs, lcg, junk =>
    let h := dithered_vol fix_volume x lcg junk
    let t := dv_list fix_volume xs h.2.1 h.2.2
    (h.1 :: t.1, t.2.1, t.2.2)

/-- shortmean: long al = a; long bl = b; long longmean = (al + bl) / 2
(C division truncates toward zero); short r = (short)longmean; the Bool
records whether the overflow-warning branch `r != longmean` was taken. -/
def shortmean (a b : Int) : Int × Bool :=
  let longmean := (a + b).tdiv 2
  let r := toShort longmean
  (r, decide (r ≠ longmean))

/-- stuff_buffer_basic (player.c lines 737-775).  `inp` is the input memory
as a function from short index to value (sample `i`'s left channel is short
`2*i`); `stuff ∈ {-1,0,1}` is the directive, `krand` the `rand()` draw used
for the stuffing position, `lcg`/`junk` the dither state.  Returns the list
of shorts written to `outptr` in order, the C return value
`frame_size + stuff`, and the final dither state.  With `stuff = 1` the loop
bound `i < frame_size + stuff` makes the tail copy `frame_size + 1 -
stuffsamp` stereo samples starting at input sample `stuffsamp`, reading one
stereo sample past the nominal frame (the slot buffers are over-allocated by
OUTFRAME_BYTES, so this stays inside the allocation). -/
def stuff_buffer_basic (frame_size : Nat) (fix_volume : Int) (inp : Nat → Int)
    (stuff : Int) (krand lcg : Nat) (junk : Int) :
    List Int × Int × Nat × Int :=
  if 1 < stuff ∨ stuff < -1 then ([], (frame_size : Int), lcg, junk)
  else
    let stuffsamp : Nat := if stuff ≠ 0 then krand % (frame_size - 2) + 1 else frame_size
    let seg1 := dv_list fix_volume ((List.range (2 * stuffsamp)).map inp) lcg junk
    if stuff = 1 then
      let mL := (shortmean (inp (2 * stuffsamp - 2)) (inp (2 * stuffsamp))).1
      let mR := (shortmean (inp (2 * stuffsamp - 1)) (inp (2 * stuffsamp + 1))).1
      let iL := dithered_vol fix_volume mL seg1.2.1 seg1.2.2
      let iR := dithered_vol fix_volume mR iL.2.1 iL.2.2
      let tl := dv_list fix_volume
        ((List.range (2 * (frame_size + 1 - stuffsamp))).map (fun j => inp (2 * stuffsamp + j)))
        iR.2.1 iR.2.2
      (seg1.1 ++ iL.1 :: iR.1 :: tl.1, (frame_size : Int) + 1, tl.2.1, tl.2.2)
    else if stuff = -1 then
      let tl := dv_list fix_volume
        ((List.range (2 * (frame_size - 1 - stuffsamp))).map
          (fun j => inp (2 * stuffsamp + 2 + j)))
        seg1.2.1 seg1.2.2
      (seg1.1 ++ tl.1, (frame_size : Int) - 1, tl.2.1, tl.2.2)
    else
      (seg1.1, (frame_size : Int), seg1.2.1, seg1.2.2)

/-! ## Helper lemmas about the arithmetic kernels -/

theorem toShort_eq_self {v : Int} (h1 : -32768 ≤ v) (h2 : v ≤ 32767) :
    toShort v = v := by
  unfold toShort
  split <;> omega

theorem tdiv_two_bounds {s : Int} (h1 : -65536 ≤ s) (h2 : s ≤ 65534) :
    -32768 ≤ s.tdiv 2 ∧ s.tdiv 2 ≤ 32767 := by
  rcases s with n | n
  · simp only [Int.ofNat_eq_coe] at h1 h2
    simp only [Int.tdiv, Int.ofNat_eq_coe]
    constructor <;> omega
  · simp only [Int.tdiv, Int.ofNat_eq_coe]
    rw [Int.negSucc_eq n] at h1 h2
    constructor <;> omega

theorem shortmean_spec {a b : Int} (ha1 : -32768 ≤ a) (ha2 : a ≤ 32767)
    (hb1 : -32768 ≤ b) (hb2 : b ≤ 32767) :
    (shortmean a b).1 = (a + b).tdiv 2 ∧ (shortmean a b).2 = false ∧
      -32768 ≤ (a + b).tdiv 2 ∧ (a + b).tdiv 2 ≤ 32767 := by
  have hs := tdiv_two_bounds (s := a + b) (by omega) (by omega)
  have he : toShort ((a + b).tdiv 2) = (a + b).tdiv 2 := toShort_eq_self hs.1 hs.2
  unfold shortmean
  refine ⟨he, ?_, hs.1, hs.2⟩
  simp [he]

theorem dithered_vol_full {x : Int} (h1 : -32768 ≤ x) (h2 : x ≤ 32767)
    (lcg : Nat) (junk : Int) : dithered_vol 65536 x lcg junk = (x, lcg, junk) := by
  unfold dithered_vol
  have hc : ¬ ((65536 : Int) < 65536) := by omega
  rw [if_neg hc]
  have hm : (x * 65536).fdiv 65536 = x := Int.mul_fdiv_cancel x (by norm_num)
  rw [hm, toShort_eq_self h1 h2]

theorem dv_list_full {xs : List Int} (hr : ∀ x ∈ xs, -32768 ≤ x ∧ x ≤ 32767)
    (lcg : Nat) (junk : Int) : dv_list 65536 xs lcg junk = (xs, lcg, junk) := by
  induction xs with
  | nil => rfl
  | cons x xs ih =>
    have hx := hr x (by simp)
    have ihh := ih (fun y hy => hr y (by simp [hy]))
    unfold dv_list
    simp only [dithered_vol_full hx.1 hx.2, ihh]

/-- Modelled from the spec: the "signed 16-bit distance" of `x` from `anchor`
("`ordinate(x, anchor)` = signed 16-bit distance from `anchor`"): the
mod-2^16 distance read as a two's-complement 16-bit value. -/
def spec_signed16_distance (anchor x : Nat) : Int :=
  if 32768 ≤ (x % 65536 + 65536 - anchor % 65536) % 65536 then
    ((x % 65536 + 65536 - anchor % 65536) % 65536 : Int) - 65536
  else ((x % 65536 + 65536 - anchor % 65536) % 65536 : Int)

/-- C5 (counterexample). At distance exactly 32767 from the anchor,
ORDINATE's `t >= 32767` test fires and returns -32769, which is neither the
signed 16-bit distance (32767) nor inside [-32768, 32767). -/
theorem c5_counterexample :
    ORDINATE 0 32767 = -32769 ∧ spec_signed16_distance 0 32767 = 32767 ∧
      ¬ (-32768 ≤ ORDINATE 0 32767) := by
  refine ⟨by decide, by decide, by decide⟩

/-- C5 (amended). ORDINATE returns a value in [-32769, 32767) that is
congruent to x - anchor modulo 2^16; it coincides with the signed 16-bit
distance except when the mod-2^16 distance is exactly 32767, where it
returns -32769 instead of 32767. -/
theorem c5_ordinate_range (r x : Nat) :
    (-32769 ≤ ORDINATE r x ∧ ORDINATE r x < 32767) ∧
      ORDINATE r x % 65536 = ((x : Int) - (r : Int)) % 65536 ∧
      ((x % 65536 + 65536 - r % 65536) % 65536 ≠ 32767 →
        ORDINATE r x = spec_signed16_distance r x) := by
  unfold ORDINATE spec_signed16_distance
  split_ifs <;> push_cast <;> constructor <;> try constructor
  all_goals omega

/-- C5 (witness). -/
theorem c5_witness :
    (5 % 65536 + 65536 - 2 % 65536) % 65536 ≠ 32767 ∧
      ORDINATE 2 5 = spec_signed16_distance 2 5 :=
  ⟨by decide, (c5_ordinate_range 2 5).2.2 (by decide)⟩

/-- C6 (counterexample). seq_diff(a, succ(a)) is not 1 for all a: with the
anchor at 0 and a = 32766 the successor's ordinate wraps to -32769 and the
difference is -65535. -/
theorem c6_counterexample :
    seq_diff 0 32766 (SUCCESSOR 32766) = -65535 ∧
      ¬ seq_diff 0 32766 (SUCCESSOR 32766) = 1 := by
  refine ⟨by decide, by decide⟩

/-- C6 (amended). seq_diff(a, succ(a)) = 1 for every a except the single
seqno at mod-2^16 distance 32766 from the anchor, where ORDINATE's wrap
point lies between a and succ(a) and the difference is -65535. -/
theorem c6_seq_diff_succ (r a : Nat) :
    seq_diff r a (SUCCESSOR a) =
      if (a % 65536 + 65536 - r % 65536) % 65536 = 32766 then -65535 else 1 := by
  unfold seq_diff ORDINATE SUCCESSOR
  split_ifs <;> push_cast <;> omega

/-- C6 (witness). -/
theorem c6_witness : seq_diff 3 10 (SUCCESSOR 10) = 1 := by
  have h := c6_seq_diff_succ 3 10
  rw [h]
  decide

/-- C10. For C shorts a, b the truncated mean (a+b)/2 always fits back into
a short: the overflow-warning branch is never taken and shortmean returns
exactly the truncated-toward-zero mean. -/
theorem c10_shortmean_total (a b : Int) (ha1 : -32768 ≤ a) (ha2 : a ≤ 32767)
    (hb1 : -32768 ≤ b) (hb2 : b ≤ 32767) :
    (shortmean a b).2 = false ∧ (shortmean a b).1 = (a + b).tdiv 2 := by
  have h := shortmean_spec ha1 ha2 hb1 hb2
  exact ⟨h.2.1, h.1⟩

/-- C10 (witness). -/
theorem c10_witness :
    ((-32768 : Int) ≤ 100 ∧ (100 : Int) ≤ 32767 ∧
        (-32768 : Int) ≤ -3 ∧ (-3 : Int) ≤ 32767) ∧
      (shortmean 100 (-3)).2 = false ∧ (shortmean 100 (-3)).1 = (97 : Int).tdiv 2 := by
  have h := c10_shortmean_total 100 (-3) (by decide) (by decide) (by decide) (by decide)
  exact ⟨by decide, h.1, h.2⟩

/-- C9. With stuff directive 0 and fix_volume = 2^16, stuff_buffer_basic is
the bit-exact identity on the frame (dither is bypassed at full volume),
returns exactly frame_size, and leaves the dither state untouched. -/
theorem c9_identity (F : Nat) (inp : Nat → Int) (krand lcg : Nat) (junk : Int)
    (hr : ∀ i, i < 2 * F → -32768 ≤ inp i ∧ inp i ≤ 32767) :
    stuff_buffer_basic F 65536 inp 0 krand lcg junk =
      ((List.range (2 * F)).map inp, (F : Int), lcg, junk) := by
  unfold stuff_buffer_basic
  rw [if_neg (by omega)]
  have hseg : dv_list 65536 ((List.range (2 * F)).map inp) lcg junk =
      ((List.range (2 * F)).map inp, lcg, junk) := by
    refine dv_list_full ?_ lcg junk
    intro x hx
    rcases List.mem_map.mp hx with ⟨i, hi, rfl⟩
    exact hr i (List.mem_range.mp hi)
  simp only [ne_eq, not_true_eq_false, if_false, ite_false, reduceIte]
  rw [if_neg (by decide)]
  simp only [hseg]
  rw [if_neg (by decide)]

/-- C9 (witness). -/
theorem c9_witness :
    (∀ i, i < 4 → -32768 ≤ (fun j => [5, -5, 300, -300].getD j 0) i ∧
        (fun j => [5, -5, 300, -300].getD j 0) i ≤ 32767) ∧
      stuff_buffer_basic 2 65536 (fun j => [5, -5, 300, -300].getD j 0) 0 0 7 9 =
        ((List.range 4).map (fun j => [5, -5, 300, -300].getD j 0), (2 : Int), 7, 9) :=
  ⟨by decide, c9_identity 2 (fun j => [5, -5, 300, -300].getD j 0) 0 7 9 (by decide)⟩

/-- C7 (counterexample). With frame_size 4, rand draw 0 (so k = 1) and full
volume, the inserted left sample is the mean of in[k-1] and in[k] (here
mean(0, 100) = 50), not the mean of in[k-1] and in[k+1] (here
mean(0, 40) = 20) as the claim states. -/
theorem c7_counterexample :
    (stuff_buffer_basic 4 65536 (fun j => [0, 0, 100, 0, 40, 0, 0, 0].getD j 0)
          1 0 12345 0).1[2]? = some 50 ∧
      (shortmean ((fun j => [0, 0, 100, 0, 40, 0, 0, 0].getD j 0) 0)
          ((fun j => [0, 0, 100, 0, 40, 0, 0, 0].getD j 0) 4)).1 = 20 ∧
      ¬ ((50 : Int) = 20) := by
  refine ⟨by decide, by decide, by decide⟩

/-- C7 (amended). For stuff directive +1 and full volume, the random index
k = krand % (F-2) + 1 is interior (1 ≤ k ≤ F-2) and the inserted stereo
sample is, on each channel, the truncated integer mean of the neighbouring
input samples in[k-1] and in[k] (shortmean of shorts 2k-2 and 2k, resp.
2k-1 and 2k+1), the two samples between which it is spliced. -/
theorem c7_interpolation (F krand lcg : Nat) (junk : Int) (inp : Nat → Int)
    (hF : 3 ≤ F) (hr : ∀ i, i < 2 * F → -32768 ≤ inp i ∧ inp i ≤ 32767) :
    1 ≤ krand % (F - 2) + 1 ∧ krand % (F - 2) + 1 ≤ F - 2 ∧
      (stuff_buffer_basic F 65536 inp 1 krand lcg junk).1[2 * (krand % (F - 2) + 1)]? =
        some ((shortmean (inp (2 * (krand % (F - 2) + 1) - 2))
          (inp (2 * (krand % (F - 2) + 1)))).1) ∧
      (stuff_buffer_basic F 65536 inp 1 krand lcg junk).1[2 * (krand % (F - 2) + 1) + 1]? =
        some ((shortmean (inp (2 * (krand % (F - 2) + 1) - 1))
          (inp (2 * (krand % (F - 2) + 1) + 1))).1) := by
  have hmod : krand % (F - 2) < F - 2 := Nat.mod_lt _ (by omega)
  set k := krand % (F - 2) + 1 with hk
  have hk1 : 1 ≤ k := by omega
  have hk2 : k ≤ F - 2 := by omega
  refine ⟨hk1, hk2, ?_⟩
  have hseg : dv_list 65536 ((List.range (2 * k)).map inp) lcg junk =
      ((List.range (2 * k)).map inp, lcg, junk) := by
    refine dv_list_full ?_ lcg junk
    intro x hx
    rcases List.mem_map.mp hx with ⟨i, hi, rfl⟩
    exact hr i (by have := List.mem_range.mp hi; omega)
  have hin : ∀ j, j < 2 * F → -32768 ≤ inp j ∧ inp j ≤ 32767 := hr
  have hmL := shortmean_spec (hin (2 * k - 2) (by omega)).1 (hin (2 * k - 2) (by omega)).2
    (hin (2 * k) (by omega)).1 (hin (2 * k) (by omega)).2
  have hmR := shortmean_spec (hin (2 * k - 1) (by omega)).1 (hin (2 * k - 1) (by omega)).2
    (hin (2 * k + 1) (by omega)).1 (hin (2 * k + 1) (by omega)).2
  have hdL : dithered_vol 65536 ((shortmean (inp (2 * k - 2)) (inp (2 * k))).1) lcg junk =
      ((shortmean (inp (2 * k - 2)) (inp (2 * k))).1, lcg, junk) := by
    rw [hmL.1]
    exact dithered_vol_full hmL.2.2.1 hmL.2.2.2 lcg junk
  have hdR : dithered_vol 65536 ((shortmean (inp (2 * k - 1)) (inp (2 * k + 1))).1) lcg junk =
      ((shortmean (inp (2 * k - 1)) (inp (2 * k + 1))).1, lcg, junk) := by
    rw [hmR.1]
    exact dithered_vol_full hmR.2.2.1 hmR.2.2.2 lcg junk
  have hsb : (stuff_buffer_basic F 65536 inp 1 krand lcg junk).1 =
      (List.range (2 * k)).map inp ++
        (shortmean (inp (2 * k - 2)) (inp (2 * k))).1 ::
          (shortmean (inp (2 * k - 1)) (inp (2 * k + 1))).1 ::
          (dv_list 65536 ((List.range (2 * (F + 1 - k))).map (fun j => inp (2 * k + j)))
            lcg junk).1 := by
    unfold stuff_buffer_basic
    rw [if_neg (by decide)]
    simp only [ne_eq, one_ne_zero, not_false_eq_true, if_true, reduceIte, ← hk]
    simp only [hseg, hdL, hdR]
  rw [hsb]
  have hlen : ((List.range (2 * k)).map inp).length = 2 * k := by simp
  constructor
  · rw [List.getElem?_append_right (by omega)]
    simp [hlen]
  · rw [List.getElem?_append_right (by omega)]
    simp [hlen]

/-- C7 (witness). -/
theorem c7_witness :
    (3 ≤ 4 ∧ ∀ i, i < 8 → -32768 ≤ (fun j => [0, 0, 100, 0, 40, 0, 0, 0].getD j 0) i ∧
        (fun j => [0, 0, 100, 0, 40, 0, 0, 0].getD j 0) i ≤ 32767) ∧
      (stuff_buffer_basic 4 65536 (fun j => [0, 0, 100, 0, 40, 0, 0, 0].getD j 0)
          1 0 12345 0).1[2]? =
        some ((shortmean ((fun j => [0, 0, 100, 0, 40, 0, 0, 0].getD j 0) 0)
          ((fun j => [0, 0, 100, 0, 40, 0, 0, 0].getD j 0) 2)).1) :=
  ⟨⟨by decide, by decide⟩,
    (c7_interpolation 4 0 12345 0 (fun j => [0, 0, 100, 0, 40, 0, 0, 0].getD j 0)
      (by decide) (by decide)).2.2.1⟩

/-! ## Correction rate limiting (player.c lines 1016-1027) -/

/-- The rate limiter applied to a nonzero stuff decision (player.c lines
1016-1027): if the play session started (both times nonzero and
local_time_now at or past first_packet_time_to_play), compute the elapsed
whole seconds tp = (now - deadline) >> 32; force the correction to 0 during
the first five seconds, and between 5 and 30 seconds drop it whenever the
draw satisfies random() % 1000 > 352. -/
def stuffRateLimit (amount_to_stuff : Int)
    (local_time_now first_packet_time_to_play : Nat) (rdraw : Nat) : Int :=
  if amount_to_stuff ≠ 0 then
    if local_time_now ≠ 0 ∧ first_packet_time_to_play ≠ 0 ∧
        first_packet_time_to_play ≤ local_time_now then
      let tp := (local_time_now - first_packet_time_to_play) >>> 32
      if tp < 5 then 0
      else if tp < 30 then
        if 352 < rdraw % 1000 then 0 else amount_to_stuff
      else amount_to_stuff
    else amount_to_stuff
  else amount_to_stuff

set_option maxRecDepth 8000 in
/-- C8 (counterexample). In the 5-30 second window the correction is dropped
for 647 of the 1000 possible draws (those with r % 1000 > 352), not for
1000 - 352 = 648 of them as the claimed fraction 1 - 352/1000 asserts. -/
theorem c8_counterexample :
    ((List.range 1000).filter
        (fun r => decide (stuffRateLimit 1 25769803776 4294967296 r = 0))).length = 647 ∧
      ¬ ((List.range 1000).filter
        (fun r => decide (stuffRateLimit 1 25769803776 4294967296 r = 0))).length =
          1000 - 352 := by
  refine ⟨?_, ?_⟩
  · decide
  · decide

set_option maxRecDepth 8000 in
/-- C8 (amended). A nonzero stuff decision that survived the tolerance and
DAC-runway checks is forced to 0 when fewer than 5 whole seconds have
elapsed since first_packet_time_to_play, and between 5 and 30 seconds it is
dropped exactly when the draw satisfies r % 1000 > 352, i.e. for 647 of the
1000 possible residues (a fraction 1 - 353/1000, not 1 - 352/1000). -/
theorem c8_rate_limit (amount : Int) (now fpttp rdraw : Nat)
    (hnz : amount ≠ 0) (hnow : now ≠ 0) (hfp : fpttp ≠ 0) (hle : fpttp ≤ now) :
    ((now - fpttp) >>> 32 < 5 → stuffRateLimit amount now fpttp rdraw = 0) ∧
      (5 ≤ (now - fpttp) >>> 32 → (now - fpttp) >>> 32 < 30 →
        stuffRateLimit amount now fpttp rdraw =
          if 352 < rdraw % 1000 then 0 else amount) ∧
      ((List.range 1000).filter (fun r => decide (352 < r % 1000))).length = 647 := by
  unfold stuffRateLimit
  rw [if_pos hnz, if_pos ⟨hnow, hfp, hle⟩]
  refine ⟨fun h5 => ?_, fun h5 h30 => ?_, by decide⟩
  · simp only [if_pos h5]
  · simp only [if_neg (by omega : ¬ (now - fpttp) >>> 32 < 5), if_pos h30]

/-- C8 (witness). Six seconds in, with draw 400 (> 352), the correction is
dropped. -/
theorem c8_witness :
    ((1 : Int) ≠ 0 ∧ (25769803776 : Nat) ≠ 0 ∧ (4294967296 : Nat) ≠ 0 ∧
        (4294967296 : Nat) ≤ 25769803776 ∧
        5 ≤ (25769803776 - 4294967296) >>> 32 ∧ (25769803776 - 4294967296) >>> 32 < 30) ∧
      stuffRateLimit 1 25769803776 4294967296 400 = 0 := by
  have h := c8_rate_limit 1 25769803776 4294967296 400 (by decide) (by decide)
    (by decide) (by decide)
  refine ⟨by decide, ?_⟩
  have h2 := h.2.1 (by decide) (by decide)
  rw [h2]
  decide

/-! ## The slot ring and producer state (player.c lines 110-372, 1245-1256) -/

/-- One slot of the audio buffer ring (audio_buffer_entry).  The PCM data is
the list of decoded shorts. -/
structure abuf_t where
  ready : Bool
  timestamp : Nat
  sequence_number : Nat
  data : List Int
deriving DecidableEq

/-- The mutex-protected producer-side state of the player, together with
logs of the calls made to the external collaborators. -/
structure PlayerState where
  ab_read : Nat
  ab_write : Nat
  ab_synced : Bool
  ab_buffering : Bool
  flush_rtp_timestamp : Nat
  flush_requested : Bool
  connection_state_to_output : Bool
  audio_buffer : Nat → abuf_t
  packet_count : Nat
  time_of_last_audio_packet : Nat
  late_packets : Nat
  too_late_packets : Nat
  missing_packets : Nat
  resend_requests : Nat
  resends : List (Nat × Int)

/-- Point update of the ring (assignment through a slot pointer). -/
def updSlot (buf : Nat → abuf_t) (i : Nat) (v : abuf_t) : Nat → abuf_t :=
  fun j => if j = i then v else buf j

/-- The zeroing loop of the "newer than expected" branch: for i = 0..gap-1
clear ready, timestamp and sequence_number of slot BUFIDX(seq_sum(ab_write, i))
(the PCM data is left in place). -/
def zeroSlots (buf : Nat → abuf_t) (start : Nat) : Nat → (Nat → abuf_t)
  | 0 => buf
  | g + 1 =>
    let prev := zeroSlots buf start g
    updSlot prev (BUFIDX (seq_sum start g))
      { prev (BUFIDX (seq_sum start g)) with
        ready := false, timestamp := 0, sequence_number := 0 }

/-- player_put_packet (player.c lines 295-372).  `decode` stands for the
opaque alac_decode pipeline writing the slot PCM, `now` for
get_absolute_time_in_fp().  `seqno` is a seq_t (< 2^16) and `timestamp` a
uint32_t (< 2^32); rtp_request_resend(ab_write, gap) is logged in
`resends`.  The pthread_cond_signal and debug logging have no state. -/
def player_put_packet (decode : List Int → List Int) (now : Nat) (s : PlayerState)
    (seqno timestamp : Nat) (data : List Int) : PlayerState :=
  let s1 := { s with packet_count := s.packet_count + 1, time_of_last_audio_packet := now }
  if s1.connection_state_to_output then
    if s1.flush_rtp_timestamp ≠ 0 ∧
        (timestamp = s1.flush_rtp_timestamp ∨
          seq32_order timestamp s1.flush_rtp_timestamp) then
      s1
    else
      let s2 :=
        if s1.flush_rtp_timestamp ≠ 0 ∧
            ¬ seq32_order timestamp s1.flush_rtp_timestamp then
          { s1 with flush_rtp_timestamp := 0 }
        else s1
      let s3 :=
        if s2.ab_synced = false then
          { s2 with ab_write := seqno, ab_read := seqno, ab_synced := true }
        else s2
      if s3.ab_write = seqno then
        { s3 with
          audio_buffer := updSlot s3.audio_buffer (BUFIDX seqno)
            { ready := true, timestamp := timestamp, sequence_number := seqno,
              data := decode data },
          ab_write := SUCCESSOR seqno }
      else if seq_order s3.ab_read s3.ab_write seqno then
        let gap : Int := seq_diff s3.ab_read s3.ab_write (PREDECESSOR seqno) + 1
        { s3 with
          audio_buffer := updSlot (zeroSlots s3.audio_buffer s3.ab_write gap.toNat)
            (BUFIDX seqno)
            { ready := true, timestamp := timestamp, sequence_number := seqno,
              data := decode data },
          resends := s3.resends ++ [(s3.ab_write, gap)],
          resend_requests := s3.resend_requests + 1,
          ab_write := SUCCESSOR seqno }
      else if seq_order s3.ab_read s3.ab_read seqno then
        { s3 with
          late_packets := s3.late_packets + 1,
          audio_buffer := updSlot s3.audio_buffer (BUFIDX seqno)
            { ready := true, timestamp := timestamp, sequence_number := seqno,
              data := decode data } }
      else
        { s3 with too_late_packets := s3.too_late_packets + 1 }
  else s1

/-- player_flush (player.c lines 1245-1256): set flush_requested and record
the flush boundary timestamp. -/
def player_flush (s : PlayerState) (timestamp : Nat) : PlayerState :=
  { s with flush_requested := true, flush_rtp_timestamp := timestamp }

/-- An empty slot as produced by init_buffer/ab_resync (the freshly malloced
PCM is modelled as the empty list). -/
def init_slot : abuf_t :=
  { ready := false, timestamp := 0, sequence_number := 0, data := [] }

/-- The player state right after player_play and the start of
player_thread_func: ab_resync has cleared the ring, flush_rtp_timestamp has
been zeroed, and connection_state_to_output has been read from the RTSP
layer (passed in as `rco`). -/
def initState (rco : Bool) : PlayerState :=
  { ab_read := 0, ab_write := 0, ab_synced := false, ab_buffering := true,
    flush_rtp_timestamp := 0, flush_requested := false,
    connection_state_to_output := rco,
    audio_buffer := fun _ => init_slot,
    packet_count := 0, time_of_last_audio_packet := 0,
    late_packets := 0, too_late_packets := 0, missing_packets := 0,
    resend_requests := 0, resends := [] }

/-- The mod-2^16 distance from ab_read up to ab_write. -/
def cursor_gap (s : PlayerState) : Nat :=
  (s.ab_write % 65536 + 65536 - s.ab_read % 65536) % 65536

/-- Unfolding lemma for the "newer than expected" branch of
player_put_packet in a synced state with no flush filter active. -/
theorem put_packet_ahead_eq (decode : List Int → List Int) (now : Nat)
    (s : PlayerState) (seqno timestamp : Nat) (data : List Int)
    (hconn : s.connection_state_to_output = true)
    (hflush : s.flush_rtp_timestamp = 0)
    (hsync : s.ab_synced = true)
    (hne : ¬ s.ab_write = seqno)
    (hso : seq_order s.ab_read s.ab_write seqno) :
    player_put_packet decode now s seqno timestamp data =
      { s with
        packet_count := s.packet_count + 1,
        time_of_last_audio_packet := now,
        audio_buffer := updSlot
          (zeroSlots s.audio_buffer s.ab_write
            (seq_diff s.ab_read s.ab_write (PREDECESSOR seqno) + 1).toNat)
          (BUFIDX seqno)
          { ready := true, timestamp := timestamp, sequence_number := seqno,
            data := decode data },
        resends := s.resends ++
          [(s.ab_write, seq_diff s.ab_read s.ab_write (PREDECESSOR seqno) + 1)],
        resend_requests := s.resend_requests + 1,
        ab_write := SUCCESSOR seqno } := by
  unfold player_put_packet
  simp only [hconn, hflush, hsync, ne_eq, not_true_eq_false, false_and, if_false,
    if_true, reduceIte, Bool.true_eq_false, if_neg hne, if_pos hso]

/-- ORDINATE evaluates to the plain mod-2^16 distance when that distance is
below the 32767 wrap point. -/
theorem ordinate_of_small {r x : Nat} (hr : r < 65536) (hx : x < 65536)
    (hd : (x + 65536 - r) % 65536 < 32767) :
    ORDINATE r x = ((x + 65536 - r) % 65536 : Nat) := by
  unfold ORDINATE
  rw [Nat.mod_eq_of_lt hx, Nat.mod_eq_of_lt hr, if_neg (by omega)]

/-- C1 (counterexample). Reachable violation of `ab_write - ab_read ≤ N`:
after play, a first packet with seqno 100 syncs the ring, and a second
packet with seqno 10000 is accepted in the "newer than expected" branch,
leaving the cursors 9901 > 512 apart. -/
theorem c1_counterexample :
    ORDINATE
        (player_put_packet (fun d => d) 2
          (player_put_packet (fun d => d) 1 (initState true) 100 500 [1])
          10000 600 [2]).ab_read
        (player_put_packet (fun d => d) 2
          (player_put_packet (fun d => d) 1 (initState true) 100 500 [1])
          10000 600 [2]).ab_write = 9901 ∧
      ¬ ORDINATE
        (player_put_packet (fun d => d) 2
          (player_put_packet (fun d => d) 1 (initState true) 100 500 [1])
          10000 600 [2]).ab_read
        (player_put_packet (fun d => d) 2
          (player_put_packet (fun d => d) 1 (initState true) 100 500 [1])
          10000 600 [2]).ab_write ≤ (BUFFER_FRAMES : Int) := by
  refine ⟨by decide, by decide⟩

/-- C1 (amended). The cursor distance is not bounded by the ring size N:
an accepted packet ahead of ab_write sets ab_write = succ(seqno) no matter
how far ahead seqno lies, so one put_packet can push the mod-2^16 cursor
distance to any value up to 32767 (and the only a-priori bound on the
distance is the seq16 range itself); ring slots are merely addressed
modulo N, aliasing older entries. -/
theorem c1_ring_distance_unbounded (decode : List Int → List Int) (now : Nat)
    (s : PlayerState) (seqno timestamp : Nat) (data : List Int)
    (hconn : s.connection_state_to_output = true)
    (hflush : s.flush_rtp_timestamp = 0)
    (hsync : s.ab_synced = true)
    (hr : s.ab_read < 65536) (hw : s.ab_write < 65536) (hq : seqno < 65536)
    (hahead : (s.ab_write + 65536 - s.ab_read) % 65536 <
      (seqno + 65536 - s.ab_read) % 65536)
    (hds : (seqno + 65536 - s.ab_read) % 65536 < 32767) :
    cursor_gap (player_put_packet decode now s seqno timestamp data) =
        (seqno + 65536 - s.ab_read) % 65536 + 1 ∧
      cursor_gap (player_put_packet decode now s seqno timestamp data) ≤ 65535 := by
  have hne : ¬ s.ab_write = seqno := by omega
  have hOq : ORDINATE s.ab_read seqno = ((seqno + 65536 - s.ab_read) % 65536 : Nat) :=
    ordinate_of_small hr hq hds
  have hOw : ORDINATE s.ab_read s.ab_write =
      ((s.ab_write + 65536 - s.ab_read) % 65536 : Nat) :=
    ordinate_of_small hr hw (by omega)
  have hso : seq_order s.ab_read s.ab_write seqno := by
    unfold seq_order
    rw [hOq, hOw]
    push_cast
    omega
  rw [put_packet_ahead_eq decode now s seqno timestamp data hconn hflush hsync hne hso]
  dsimp only [cursor_gap, SUCCESSOR]
  constructor <;> omega

/-- C1 (witness). The second step of the counterexample trace satisfies the
hypotheses of the amended theorem, with distance 9901. -/
theorem c1_witness :
    ((player_put_packet (fun d => d) 1 (initState true) 100 500
          [1]).connection_state_to_output = true ∧
      (player_put_packet (fun d => d) 1 (initState true) 100 500
          [1]).flush_rtp_timestamp = 0 ∧
      (player_put_packet (fun d => d) 1 (initState true) 100 500 [1]).ab_synced = true) ∧
      cursor_gap (player_put_packet (fun d => d) 2
        (player_put_packet (fun d => d) 1 (initState true) 100 500 [1]) 10000 600 [2]) =
        (10000 + 65536 -
          (player_put_packet (fun d => d) 1 (initState true) 100 500 [1]).ab_read) %
          65536 + 1 :=
  ⟨⟨by decide, by decide, by decide⟩,
    (c1_ring_distance_unbounded (fun d => d) 2
      (player_put_packet (fun d => d) 1 (initState true) 100 500 [1]) 10000 600 [2]
      (by decide) (by decide) (by decide) (by decide) (by decide) (by decide)
      (by decide) (by decide)).1⟩

/-- Value of the ring after the zeroing loop: a slot hit by some iteration
has ready/timestamp/sequence_number cleared (its PCM kept), the rest are
untouched. -/
theorem zeroSlots_val (buf : Nat → abuf_t) (start : Nat) :
    ∀ g j, zeroSlots buf start g j =
      if ∃ i, i < g ∧ BUFIDX (seq_sum start i) = j then
        { buf j with ready := false, timestamp := 0, sequence_number := 0 }
      else buf j := by
  intro g
  induction g with
  | zero =>
    intro j
    simp [zeroSlots]
  | succ g ih =>
    intro j
    unfold zeroSlots updSlot
    dsimp only
    by_cases hj : j = BUFIDX (seq_sum start g)
    · rw [if_pos hj]
      rw [if_pos ⟨g, by omega, hj.symm⟩]
      rw [ih (BUFIDX (seq_sum start g))]
      subst hj
      split <;> rfl
    · rw [if_neg hj, ih j]
      by_cases hex : ∃ i, i < g ∧ BUFIDX (seq_sum start i) = j
      · rw [if_pos hex, if_pos]
        rcases hex with ⟨i, hi, he⟩
        exact ⟨i, by omega, he⟩
      · rw [if_neg hex, if_neg]
        intro hex2
        rcases hex2 with ⟨i, hi, he⟩
        rcases Nat.lt_succ_iff_lt_or_eq.mp hi with hlt | heq
        · exact hex ⟨i, hlt, he⟩
        · subst heq
          exact hj he.symm

/-- C4. In a synced, unflushed state, a packet strictly ahead of ab_write
(at mod-2^16 distances dw < ds < 32767 from ab_read) zeroes the flags of
every intervening slot, issues exactly one resend request for the range
[ab_write, pred(seqno)] (count ds - dw), decodes into slot BUFIDX(seqno),
and sets ab_write = succ(seqno). -/
theorem c4_gap_resend (decode : List Int → List Int) (now : Nat)
    (s : PlayerState) (seqno timestamp : Nat) (data : List Int)
    (hconn : s.connection_state_to_output = true)
    (hflush : s.flush_rtp_timestamp = 0)
    (hsync : s.ab_synced = true)
    (hr : s.ab_read < 65536) (hw : s.ab_write < 65536) (hq : seqno < 65536)
    (hahead : (s.ab_write + 65536 - s.ab_read) % 65536 <
      (seqno + 65536 - s.ab_read) % 65536)
    (hds : (seqno + 65536 - s.ab_read) % 65536 < 32767) :
    (player_put_packet decode now s seqno timestamp data).ab_write = SUCCESSOR seqno ∧
      (player_put_packet decode now s seqno timestamp data).resends =
        s.resends ++ [(s.ab_write,
          ((seqno + 65536 - s.ab_read) % 65536 : Int) -
            ((s.ab_write + 65536 - s.ab_read) % 65536 : Int))] ∧
      (player_put_packet decode now s seqno timestamp data).audio_buffer
          (BUFIDX seqno) =
        { ready := true, timestamp := timestamp, sequence_number := seqno,
          data := decode data } ∧
      ∀ i, i < (seqno + 65536 - s.ab_read) % 65536 -
          (s.ab_write + 65536 - s.ab_read) % 65536 →
        ¬ BUFIDX (seq_sum s.ab_write i) = BUFIDX seqno →
        (player_put_packet decode now s seqno timestamp data).audio_buffer
            (BUFIDX (seq_sum s.ab_write i)) =
          { s.audio_buffer (BUFIDX (seq_sum s.ab_write i)) with
            ready := false, timestamp := 0, sequence_number := 0 } := by
  have hne : ¬ s.ab_write = seqno := by omega
  have hOq : ORDINATE s.ab_read seqno = ((seqno + 65536 - s.ab_read) % 65536 : Nat) :=
    ordinate_of_small hr hq hds
  have hOw : ORDINATE s.ab_read s.ab_write =
      ((s.ab_write + 65536 - s.ab_read) % 65536 : Nat) :=
    ordinate_of_small hr hw (by omega)
  have hso : seq_order s.ab_read s.ab_write seqno := by
    unfold seq_order
    rw [hOq, hOw]
    push_cast
    omega
  have hpredlt : PREDECESSOR seqno < 65536 := by
    unfold PREDECESSOR
    omega
  have hpredd : (PREDECESSOR seqno + 65536 - s.ab_read) % 65536 =
      (seqno + 65536 - s.ab_read) % 65536 - 1 := by
    unfold PREDECESSOR
    rw [Nat.mod_eq_of_lt hq]
    omega
  have hOp : ORDINATE s.ab_read (PREDECESSOR seqno) =
      (((seqno + 65536 - s.ab_read) % 65536 - 1 : Nat) : Int) := by
    rw [ordinate_of_small hr hpredlt (by omega), hpredd]
  have hgap : seq_diff s.ab_read s.ab_write (PREDECESSOR seqno) + 1 =
      ((seqno + 65536 - s.ab_read) % 65536 : Int) -
        ((s.ab_write + 65536 - s.ab_read) % 65536 : Int) := by
    unfold seq_diff
    rw [hOp, hOw]
    push_cast
    omega
  have hgapN : (seq_diff s.ab_read s.ab_write (PREDECESSOR seqno) + 1).toNat =
      (seqno + 65536 - s.ab_read) % 65536 - (s.ab_write + 65536 - s.ab_read) % 65536 := by
    rw [hgap]
    omega
  rw [put_packet_ahead_eq decode now s seqno timestamp data hconn hflush hsync hne hso]
  dsimp only
  refine ⟨rfl, by rw [hgap], ?_, ?_⟩
  · unfold updSlot
    rw [if_pos rfl]
  · intro i hi hnei
    unfold updSlot
    rw [if_neg hnei, hgapN, zeroSlots_val]
    rw [if_pos ⟨i, hi, rfl⟩]

/-- The state of scenario "packets 100, 101 accepted in order after play". -/
def c4_state : PlayerState :=
  player_put_packet (fun d => d) 2
    (player_put_packet (fun d => d) 1 (initState true) 100 500 [1]) 101 501 [2]

/-- The scenario state after packet 103 arrives (packet 102 was lost). -/
def c4_result : PlayerState :=
  player_put_packet (fun d => d) 3 c4_state 103 503 [3]

/-- C4 (witness). In the concrete 100/101/103 scenario: slot 102 is zeroed,
one resend request (102, 1) is issued, 103 is decoded into its slot, and
ab_write becomes 104. -/
theorem c4_witness :
    (c4_state.connection_state_to_output = true ∧ c4_state.flush_rtp_timestamp = 0 ∧
        c4_state.ab_synced = true ∧ c4_state.ab_read = 100 ∧ c4_state.ab_write = 102 ∧
        c4_state.resends = []) ∧
      c4_result.ab_write = 104 ∧
      c4_result.resends = [(102, 1)] ∧
      c4_result.audio_buffer (BUFIDX 103) =
        { ready := true, timestamp := 503, sequence_number := 103, data := [3] } ∧
      c4_result.audio_buffer (BUFIDX (seq_sum c4_state.ab_write 0)) = init_slot := by
  have h := c4_gap_resend (fun d => d) 3 c4_state 103 503 [3] (by decide) (by decide)
    (by decide) (by decide) (by decide) (by decide) (by decide) (by decide)
  refine ⟨by decide, h.1.trans (by decide), h.2.1.trans (by decide), h.2.2.1,
    (h.2.2.2 0 (by decide) (by decide)).trans (by decide)⟩


/-- Unfolding lemma for the drop branch of the flush filter: a packet at or
before the boundary changes only the packet count and arrival time. -/
theorem put_packet_drop_eq (decode : List Int → List Int) (now : Nat)
    (s : PlayerState) (seqno timestamp : Nat) (data : List Int)
    (hconn : s.connection_state_to_output = true)
    (hflush : s.flush_rtp_timestamp ≠ 0)
    (hdrop : timestamp = s.flush_rtp_timestamp ∨
      seq32_order timestamp s.flush_rtp_timestamp) :
    player_put_packet decode now s seqno timestamp data =
      { s with packet_count := s.packet_count + 1,
               time_of_last_audio_packet := now } := by
  unfold player_put_packet
  dsimp only
  rw [if_pos hconn, if_pos (And.intro hflush hdrop)]

/-- Unfolding lemma for the filter-clearing step: a packet strictly after an
active flush boundary is processed exactly as in the state with the filter
already cleared. -/
theorem put_packet_clear_eq (decode : List Int → List Int) (now : Nat)
    (s : PlayerState) (seqno timestamp : Nat) (data : List Int)
    (hconn : s.connection_state_to_output = true)
    (hflush : s.flush_rtp_timestamp ≠ 0)
    (hnodrop : ¬ (timestamp = s.flush_rtp_timestamp ∨
      seq32_order timestamp s.flush_rtp_timestamp)) :
    player_put_packet decode now s seqno timestamp data =
      player_put_packet decode now { s with flush_rtp_timestamp := 0 }
        seqno timestamp data := by
  have hns : ¬ seq32_order timestamp s.flush_rtp_timestamp :=
    fun h => hnodrop (Or.inr h)
  conv_lhs =>
    unfold player_put_packet
    dsimp only
    rw [if_pos hconn]
    rw [if_neg (show ¬ (s.flush_rtp_timestamp ≠ 0 ∧
      (timestamp = s.flush_rtp_timestamp ∨ seq32_order timestamp s.flush_rtp_timestamp))
      from fun hc => hnodrop hc.2)]
    rw [if_pos (And.intro hflush hns)]
  conv_rhs =>
    unfold player_put_packet
    dsimp only
    rw [if_pos hconn]
    rw [if_neg (show ¬ ((0 : Nat) ≠ 0 ∧
      (timestamp = 0 ∨ seq32_order timestamp 0)) from fun hc => hc.1 rfl)]
    rw [if_neg (show ¬ ((0 : Nat) ≠ 0 ∧ ¬ seq32_order timestamp 0)
      from fun hc => hc.1 rfl)]

/-- Unfolding lemma for the first packet after a loss of sync: both cursors
are set to its seqno and it is decoded as the expected packet. -/
theorem put_packet_unsynced_eq (decode : List Int → List Int) (now : Nat)
    (s : PlayerState) (seqno timestamp : Nat) (data : List Int)
    (hconn : s.connection_state_to_output = true)
    (hflush : s.flush_rtp_timestamp = 0)
    (hsync : s.ab_synced = false) :
    player_put_packet decode now s seqno timestamp data =
      { s with packet_count := s.packet_count + 1,
               time_of_last_audio_packet := now,
               ab_read := seqno, ab_synced := true,
               audio_buffer := updSlot s.audio_buffer (BUFIDX seqno)
                 { ready := true, timestamp := timestamp, sequence_number := seqno,
                   data := decode data },
               ab_write := SUCCESSOR seqno } := by
  unfold player_put_packet
  simp only [hconn, hflush, hsync, ne_eq, not_true_eq_false, false_and, if_false,
    if_true, reduceIte, Bool.true_eq_false]

/-- Unfolding lemma for the expected branch (seq == ab_write). -/
theorem put_packet_expected_eq (decode : List Int → List Int) (now : Nat)
    (s : PlayerState) (seqno timestamp : Nat) (data : List Int)
    (hconn : s.connection_state_to_output = true)
    (hflush : s.flush_rtp_timestamp = 0)
    (hsync : s.ab_synced = true)
    (heq : s.ab_write = seqno) :
    player_put_packet decode now s seqno timestamp data =
      { s with packet_count := s.packet_count + 1,
               time_of_last_audio_packet := now,
               audio_buffer := updSlot s.audio_buffer (BUFIDX seqno)
                 { ready := true, timestamp := timestamp, sequence_number := seqno,
                   data := decode data },
               ab_write := SUCCESSOR seqno } := by
  unfold player_put_packet
  simp only [hconn, hflush, hsync, ne_eq, not_true_eq_false, false_and, if_false,
    if_true, reduceIte, Bool.true_eq_false, if_pos heq]

/-- Unfolding lemma for the late branch (behind ab_write, after ab_read). -/
theorem put_packet_late_eq (decode : List Int → List Int) (now : Nat)
    (s : PlayerState) (seqno timestamp : Nat) (data : List Int)
    (hconn : s.connection_state_to_output = true)
    (hflush : s.flush_rtp_timestamp = 0)
    (hsync : s.ab_synced = true)
    (hne : ¬ s.ab_write = seqno)
    (hso1 : ¬ seq_order s.ab_read s.ab_write seqno)
    (hso2 : seq_order s.ab_read s.ab_read seqno) :
    player_put_packet decode now s seqno timestamp data =
      { s with packet_count := s.packet_count + 1,
               time_of_last_audio_packet := now,
               late_packets := s.late_packets + 1,
               audio_buffer := updSlot s.audio_buffer (BUFIDX seqno)
                 { ready := true, timestamp := timestamp, sequence_number := seqno,
                   data := decode data } } := by
  unfold player_put_packet
  simp only [hconn, hflush, hsync, ne_eq, not_true_eq_false, false_and, if_false,
    if_true, reduceIte, Bool.true_eq_false, if_neg hne, if_neg hso1, if_pos hso2]

/-- Unfolding lemma for the too-late branch (at or behind ab_read): only the
too_late_packets counter changes. -/
theorem put_packet_toolate_eq (decode : List Int → List Int) (now : Nat)
    (s : PlayerState) (seqno timestamp : Nat) (data : List Int)
    (hconn : s.connection_state_to_output = true)
    (hflush : s.flush_rtp_timestamp = 0)
    (hsync : s.ab_synced = true)
    (hne : ¬ s.ab_write = seqno)
    (hso1 : ¬ seq_order s.ab_read s.ab_write seqno)
    (hso2 : ¬ seq_order s.ab_read s.ab_read seqno) :
    player_put_packet decode now s seqno timestamp data =
      { s with packet_count := s.packet_count + 1,
               time_of_last_audio_packet := now,
               too_late_packets := s.too_late_packets + 1 } := by
  unfold player_put_packet
  simp only [hconn, hflush, hsync, ne_eq, not_true_eq_false, false_and, if_false,
    if_true, reduceIte, Bool.true_eq_false, if_neg hne, if_neg hso1, if_neg hso2]

/-- C2 (amended). With the flush filter active and the connection on:
a packet whose timestamp is at or before flush_rtp_timestamp in 32-bit wrap
order is dropped, changing nothing but the packet count and the arrival
time (no slot, cursor, sync flag or filter change); a packet strictly after
the boundary always resets flush_rtp_timestamp to 0, but it is entered into
the ring only when the producer selects a slot for it — always when not yet
synced, and otherwise only when its seqno is the expected one, ahead of
ab_write, or still ahead of ab_read; a too-late seqno leaves the ring and
both cursors untouched even though the filter was cleared. -/
theorem c2_flush_filter (decode : List Int → List Int) (now : Nat)
    (s : PlayerState) (seqno timestamp : Nat) (data : List Int)
    (hconn : s.connection_state_to_output = true)
    (hflush : s.flush_rtp_timestamp ≠ 0) :
    (timestamp = s.flush_rtp_timestamp ∨ seq32_order timestamp s.flush_rtp_timestamp →
      player_put_packet decode now s seqno timestamp data =
        { s with packet_count := s.packet_count + 1,
                 time_of_last_audio_packet := now }) ∧
    (¬ (timestamp = s.flush_rtp_timestamp ∨ seq32_order timestamp s.flush_rtp_timestamp) →
      (player_put_packet decode now s seqno timestamp data).flush_rtp_timestamp = 0 ∧
      ((s.ab_synced = false ∨ s.ab_write = seqno ∨
          seq_order s.ab_read s.ab_write seqno ∨ seq_order s.ab_read s.ab_read seqno) →
        (player_put_packet decode now s seqno timestamp data).audio_buffer
            (BUFIDX seqno) =
          { ready := true, timestamp := timestamp, sequence_number := seqno,
            data := decode data }) ∧
      (¬ (s.ab_synced = false ∨ s.ab_write = seqno ∨
          seq_order s.ab_read s.ab_write seqno ∨ seq_order s.ab_read s.ab_read seqno) →
        (player_put_packet decode now s seqno timestamp data).audio_buffer =
            s.audio_buffer ∧
          (player_put_packet decode now s seqno timestamp data).ab_read = s.ab_read ∧
          (player_put_packet decode now s seqno timestamp data).ab_write =
            s.ab_write)) := by
  constructor
  · exact fun hdrop => put_packet_drop_eq decode now s seqno timestamp data hconn hflush hdrop
  · intro hnodrop
    rw [put_packet_clear_eq decode now s seqno timestamp data hconn hflush hnodrop]
    by_cases hsy : s.ab_synced = false
    · rw [put_packet_unsynced_eq decode now { s with flush_rtp_timestamp := 0 } seqno timestamp data hconn rfl hsy]
      refine ⟨rfl, fun _ => ?_, fun hnp => absurd (Or.inl hsy) hnp⟩
      dsimp only
      unfold updSlot
      rw [if_pos rfl]
    · have hsy2 : s.ab_synced = true := by
        cases h : s.ab_synced
        · exact absurd h hsy
        · rfl
      by_cases hexp : s.ab_write = seqno
      · rw [put_packet_expected_eq decode now { s with flush_rtp_timestamp := 0 } seqno timestamp data hconn rfl hsy2 hexp]
        refine ⟨rfl, fun _ => ?_, fun hnp => absurd (Or.inr (Or.inl hexp)) hnp⟩
        dsimp only
        unfold updSlot
        rw [if_pos rfl]
      · by_cases hso1 : seq_order s.ab_read s.ab_write seqno
        · rw [put_packet_ahead_eq decode now { s with flush_rtp_timestamp := 0 } seqno timestamp data hconn rfl hsy2 hexp hso1]
          refine ⟨rfl, fun _ => ?_, fun hnp => absurd (Or.inr (Or.inr (Or.inl hso1))) hnp⟩
          dsimp only
          unfold updSlot
          rw [if_pos rfl]
        · by_cases hso2 : seq_order s.ab_read s.ab_read seqno
          · rw [put_packet_late_eq decode now { s with flush_rtp_timestamp := 0 } seqno timestamp data hconn rfl hsy2 hexp
              hso1 hso2]
            refine ⟨rfl, fun _ => ?_,
              fun hnp => absurd (Or.inr (Or.inr (Or.inr hso2))) hnp⟩
            dsimp only
            unfold updSlot
            rw [if_pos rfl]
          · rw [put_packet_toolate_eq decode now { s with flush_rtp_timestamp := 0 } seqno timestamp data hconn rfl hsy2 hexp
              hso1 hso2]
            refine ⟨rfl, fun hp => ?_, fun _ => ⟨rfl, rfl, rfl⟩⟩
            rcases hp with h | h | h | h
            · exact absurd h hsy
            · exact absurd h hexp
            · exact absurd h hso1
            · exact absurd h hso2

/-- A playing state (packets 100 and 101 accepted) on which player_flush
with boundary 2000 has just been called; the scheduler has not yet run, so
the ring is still synced and the filter is active. -/
def c2_state : PlayerState :=
  player_flush
    (player_put_packet (fun d => d) 2
      (player_put_packet (fun d => d) 1 (initState true) 100 500 [1]) 101 501 [2])
    2000

/-- C2 (counterexample). A packet with timestamp 2001, strictly after the
active flush boundary 2000, clears the filter but is NOT accepted into the
ring: its seqno 99 is behind ab_read = 100, so it lands in the too-late
branch and no slot is written. -/
theorem c2_counterexample :
    c2_state.connection_state_to_output = true ∧
      c2_state.flush_rtp_timestamp = 2000 ∧
      seq32_order 2000 2001 ∧
      (player_put_packet (fun d => d) 3 c2_state 99 2001 [3]).flush_rtp_timestamp = 0 ∧
      ((player_put_packet (fun d => d) 3 c2_state 99 2001 [3]).audio_buffer
          (BUFIDX 99)).ready = false ∧
      (player_put_packet (fun d => d) 3 c2_state 99 2001 [3]).too_late_packets =
        c2_state.too_late_packets + 1 := by
  refine ⟨by decide, by decide, by decide, by decide, by decide, by decide⟩

/-- C2 (witness). On the same flush-active state, a packet with timestamp
1999 (before the boundary) is dropped without touching the state beyond the
counters, and the expected packet 102 with timestamp 2001 clears the filter
and is decoded into its slot. -/
theorem c2_witness :
    (c2_state.connection_state_to_output = true ∧ c2_state.flush_rtp_timestamp ≠ 0 ∧
        (1999 = c2_state.flush_rtp_timestamp ∨
          seq32_order 1999 c2_state.flush_rtp_timestamp) ∧
        ¬ (2001 = c2_state.flush_rtp_timestamp ∨
          seq32_order 2001 c2_state.flush_rtp_timestamp)) ∧
      player_put_packet (fun d => d) 9 c2_state 150 1999 [4] =
        { c2_state with packet_count := c2_state.packet_count + 1,
                        time_of_last_audio_packet := 9 } ∧
      (player_put_packet (fun d => d) 9 c2_state 102 2001 [4]).flush_rtp_timestamp = 0 ∧
      (player_put_packet (fun d => d) 9 c2_state 102 2001 [4]).audio_buffer
          (BUFIDX 102) =
        { ready := true, timestamp := 2001, sequence_number := 102, data := [4] } := by
  have h1 := c2_flush_filter (fun d => d) 9 c2_state 150 1999 [4] (by decide) (by decide)
  have h2 := c2_flush_filter (fun d => d) 9 c2_state 102 2001 [4] (by decide) (by decide)
  have h2b := h2.2 (by decide)
  exact ⟨by decide, h1.1 (by decide), h2b.1, h2b.2.1 (by decide)⟩

/-! ## Consumer side: the tail of buffer_get_frame (player.c lines 697-723)
and the per-frame body of player_thread_func (lines 908-1184) -/

/-- The offsets visited by the last-chance resend scan
`for (i = 8; i < bound; i = i * 2)`: the doubling sequence 8, 16, 32, ...
strictly below the bound (16 doublings cover every reachable bound, since
seq_diff/2 is below 8 * 2^15). -/
def resend_offsets (bound : Int) : List Nat :=
  ((List.range 16).map (fun j => 8 * 2 ^ j)).filter (fun i => decide ((i : Int) < bound))

/-- One step of the resend scan: if the slot at offset `i` ahead of ab_read
is not ready, log a single-frame resend request. -/
def resend_scan_step (acc : PlayerState) (i : Nat) : PlayerState :=
  if (acc.audio_buffer (BUFIDX (seq_sum acc.ab_read i))).ready = false then
    { acc with resends := acc.resends ++ [(seq_sum acc.ab_read i, 1)],
               resend_requests := acc.resend_requests + 1 }
  else acc

/-- The tail of buffer_get_frame after the wait loop has decided to release
a frame (player.c lines 697-723): run the opportunistic resend scan, then
take the head slot; if it is not ready, zero its PCM (`frame_size` stereo
samples), set its timestamp to 0 and count a missing packet.  Clear the
slot's ready flag, advance ab_read, and return the new state together with
the released frame (the C code returns a pointer into the ring; the
returned value equals the slot's content after these writes). -/
def buffer_get_frame_tail (frame_size : Nat) (s : PlayerState) :
    PlayerState × abuf_t :=
  let s1 :=
    if s.ab_buffering = false then
      (resend_offsets ((seq_diff s.ab_read s.ab_read s.ab_write).tdiv 2)).foldl
        resend_scan_step s
    else s
  let cf := s1.audio_buffer (BUFIDX s1.ab_read)
  let s2 := if cf.ready = false then
      { s1 with missing_packets := s1.missing_packets + 1 } else s1
  let cf2 := if cf.ready = false then
      { cf with data := List.replicate (2 * frame_size) 0, timestamp := 0 } else cf
  let cf3 := { cf2 with ready := false }
  ({ s2 with audio_buffer := updSlot s2.audio_buffer (BUFIDX s2.ab_read) cf3,
             ab_read := SUCCESSOR s2.ab_read }, cf3)

/-- One entry of the statistics ring (struct stats). -/
structure stats_t where
  sync_error : Int
  correction : Int
  drift : Int
deriving DecidableEq

/-- trend_interval, the length of the statistics ring. -/
def trend_interval : Nat := 3758

/-- The configuration the player thread reads (config.*, and whether
config.output->delay exists). -/
structure ThreadConfig where
  latency : Int
  tolerance : Int
  resyncthreshold : Int
  has_delay : Bool
  frame_size : Nat

/-- The per-tick inputs of the loop body: the reference anchor, the current
time, the device delay (-1 on error), the deadline of the first packet, the
buffer occupancy snapshot seq_diff(ab_read, ab_write), and the two random
draws (random() for the rate limiter, rand() for the stuffing position). -/
structure ThreadInputs where
  reference_timestamp : Nat
  reference_timestamp_time : Nat
  local_time_now : Nat
  current_delay_raw : Int
  first_packet_time_to_play : Nat
  buffer_occupancy : Int
  rand_rate : Nat
  rand_stuff : Nat

/-- The thread-local state of player_thread_func, with logs of the play
calls (buffer, frame count) and of the player_flush resync calls. -/
structure PThreadState where
  last_seqno_read : Int
  sync_error_out_of_bounds : Nat
  number_of_statistics : Nat
  oldest_statistic : Nat
  newest_statistic : Nat
  statistics : Nat → stats_t
  tsum_of_sync_errors : Int
  tsum_of_corrections : Int
  tsum_of_insertions_and_deletions : Int
  tsum_of_drifts : Int
  previous_sync_error : Int
  previous_correction : Int
  session_corrections : Int
  play_number : Nat
  at_least_one_frame_seen : Bool
  minimum_dac_queue_size : Int
  minimum_buffer_occupancy : Int
  maximum_buffer_occupancy : Int
  fix_volume : Int
  lcg : Nat
  dv_junk : Int
  plays : List (List Int × Nat)
  flush_calls : List Nat

/-- The running-average update (player.c lines 1107-1144): retire the
oldest entry when the ring is full, then record sync_error, the correction
and the drift for this frame and add them to the running sums. -/
def statsUpdate (st : PThreadState) (sync_error amount_to_stuff : Int) :
    PThreadState :=
  let st1 :=
    if st.number_of_statistics = trend_interval then
      { st with
        tsum_of_sync_errors :=
          st.tsum_of_sync_errors - (st.statistics st.oldest_statistic).sync_error,
        tsum_of_drifts := st.tsum_of_drifts - (st.statistics st.oldest_statistic).drift,
        tsum_of_insertions_and_deletions :=
          if 0 < (st.statistics st.oldest_statistic).correction then
            st.tsum_of_insertions_and_deletions -
              (st.statistics st.oldest_statistic).correction
          else
            st.tsum_of_insertions_and_deletions +
              (st.statistics st.oldest_statistic).correction,
        tsum_of_corrections :=
          st.tsum_of_corrections - (st.statistics st.oldest_statistic).correction,
        oldest_statistic := (st.oldest_statistic + 1) % trend_interval,
        number_of_statistics := st.number_of_statistics - 1 }
    else st
  let drift : Int :=
    if st1.number_of_statistics = 0 then 0
    else sync_error - st1.previous_sync_error - st1.previous_correction
  { st1 with
    statistics := fun j =>
      if j = st1.newest_statistic then
        { sync_error := sync_error, correction := amount_to_stuff, drift := drift }
      else st1.statistics j,
    previous_sync_error := sync_error,
    previous_correction := amount_to_stuff,
    tsum_of_sync_errors := st1.tsum_of_sync_errors + sync_error,
    tsum_of_drifts := st1.tsum_of_drifts + drift,
    tsum_of_insertions_and_deletions :=
      if 0 < amount_to_stuff then
        st1.tsum_of_insertions_and_deletions + amount_to_stuff
      else st1.tsum_of_insertions_and_deletions - amount_to_stuff,
    tsum_of_corrections := st1.tsum_of_corrections + amount_to_stuff,
    session_corrections := st1.session_corrections + amount_to_stuff,
    newest_statistic := (st1.newest_statistic + 1) % trend_interval,
    number_of_statistics := st1.number_of_statistics + 1 }

/-- One pass of the player_thread_func loop body over a frame returned by
buffer_get_frame (player.c lines 908-1184, for a non-null frame).  External
reads (reference anchor, clock, device delay, random draws) are the fields
of `inp`; please_stop is false while the loop runs.  A frame with
timestamp 0 is the supplied silent filler: it is played directly and only
the out-of-sequence minder is advanced.  Otherwise the sync error and the
stuff decision are computed (when the device has a delay hook), the frame
is emitted through stuff_buffer_basic unless no correction and full volume
allow the direct path, the resync counter is maintained, and the running
statistics are updated.  The periodic statistics print only resets the
min/max trackers.  (The C code passes sync_error to abs() as an int; the
truncation of that narrowing is not modelled.) -/
def processFrame (cfg : ThreadConfig) (inp : ThreadInputs) (st0 : PThreadState)
    (inframe : abuf_t) : PThreadState :=
  let st : PThreadState := { st0 with play_number := st0.play_number + 1 }
  let st2 :=
    if inframe.timestamp = 0 then
      { st with
        last_seqno_read := ((SUCCESSOR (st.last_seqno_read % 65536).toNat : Nat) : Int),
        plays := st.plays ++ [(inframe.data, cfg.frame_size)] }
    else
      let st : PThreadState := { st with at_least_one_frame_seen := true }
      let rt : Int := inp.reference_timestamp
      let nt : Int := inframe.timestamp
      let td : Int := (inp.local_time_now : Int) - (inp.reference_timestamp_time : Int)
      let td_in_frames : Int :=
        if 0 ≤ td then (td * 44100).fdiv 4294967296
        else -((-td * 44100).fdiv 4294967296)
      let st :=
        if st.last_seqno_read = -1 then
          { st with last_seqno_read := (inframe.sequence_number : Int) }
        else
          if (inframe.sequence_number : Int) ≠
              ((SUCCESSOR (st.last_seqno_read % 65536).toNat : Nat) : Int) then
            { st with last_seqno_read := (inframe.sequence_number : Int) }
          else
            { st with
              last_seqno_read :=
                ((SUCCESSOR (st.last_seqno_read % 65536).toNat : Nat) : Int) }
      let st : PThreadState := { st with
        minimum_buffer_occupancy :=
          if inp.buffer_occupancy < st.minimum_buffer_occupancy then
            inp.buffer_occupancy
          else st.minimum_buffer_occupancy,
        maximum_buffer_occupancy :=
          if st.maximum_buffer_occupancy < inp.buffer_occupancy then
            inp.buffer_occupancy
          else st.maximum_buffer_occupancy }
      if cfg.has_delay then
        let current_delay : Int :=
          if inp.current_delay_raw = -1 then 0 else inp.current_delay_raw
        let st : PThreadState := { st with
          minimum_dac_queue_size :=
            if current_delay < st.minimum_dac_queue_size then current_delay
            else st.minimum_dac_queue_size }
        let sync_error : Int := td_in_frames + rt - (nt - current_delay) - cfg.latency
        let a1 : Int := if cfg.tolerance < sync_error then -1 else 0
        let a2 : Int := if sync_error < -cfg.tolerance then 1 else a1
        let a3 : Int := if current_delay < 5000 then 0 else a2
        let amount_to_stuff :=
          stuffRateLimit a3 inp.local_time_now inp.first_packet_time_to_play
            inp.rand_rate
        let st : PThreadState :=
          if amount_to_stuff = 0 ∧ st.fix_volume = 65536 then
            { st with plays := st.plays ++ [(inframe.data, cfg.frame_size)] }
          else
            let r := stuff_buffer_basic cfg.frame_size st.fix_volume
              (fun i => inframe.data.getD i 0) amount_to_stuff inp.rand_stuff
              st.lcg st.dv_junk
            { st with plays := st.plays ++ [(r.1, r.2.1.toNat)],
                      lcg := r.2.2.1, dv_junk := r.2.2.2 }
        let st : PThreadState :=
          if inframe.timestamp ≠ 0 ∧ cfg.resyncthreshold ≠ 0 ∧
              cfg.resyncthreshold < |sync_error| then
            if 3 < st.sync_error_out_of_bounds + 1 then
              { st with sync_error_out_of_bounds := 0,
                        flush_calls := st.flush_calls ++ [inframe.timestamp] }
            else
              { st with sync_error_out_of_bounds := st.sync_error_out_of_bounds + 1 }
          else { st with sync_error_out_of_bounds := 0 }
        statsUpdate st sync_error amount_to_stuff
      else
        let st : PThreadState :=
          if st.fix_volume = 65536 then
            { st with plays := st.plays ++ [(inframe.data, cfg.frame_size)] }
          else
            let r := stuff_buffer_basic cfg.frame_size st.fix_volume
              (fun i => inframe.data.getD i 0) 0 inp.rand_stuff st.lcg st.dv_junk
            { st with plays := st.plays ++ [(r.1, cfg.frame_size)],
                      lcg := r.2.2.1, dv_junk := r.2.2.2 }
        statsUpdate st 0 0
  if st2.play_number % trend_interval = 0 then
    { st2 with minimum_dac_queue_size := 1000000,
               maximum_buffer_occupancy := 0,
               minimum_buffer_occupancy := (BUFFER_FRAMES : Int),
               at_least_one_frame_seen := false }
  else st2

/-- The opportunistic resend scan only appends resend requests: it leaves
the ring, the read cursor and the missing-packet counter unchanged. -/
theorem resend_scan_preserves (l : List Nat) (s : PlayerState) :
    (l.foldl resend_scan_step s).ab_read = s.ab_read ∧
      (l.foldl resend_scan_step s).audio_buffer = s.audio_buffer ∧
      (l.foldl resend_scan_step s).missing_packets = s.missing_packets := by
  induction l generalizing s with
  | nil => exact ⟨rfl, rfl, rfl⟩
  | cons i l ih =>
    have hstep : (resend_scan_step s i).ab_read = s.ab_read ∧
        (resend_scan_step s i).audio_buffer = s.audio_buffer ∧
        (resend_scan_step s i).missing_packets = s.missing_packets := by
      unfold resend_scan_step
      split <;> exact ⟨rfl, rfl, rfl⟩
    have h := ih (resend_scan_step s i)
    rw [List.foldl_cons]
    exact ⟨h.1.trans hstep.1, h.2.1.trans hstep.2.1, h.2.2.trans hstep.2.2⟩

/-- C3. A filler frame never drives a sync correction.  Part one: when the
head slot is not ready, buffer_get_frame's tail returns a frame with
timestamp 0, zeroed PCM and ready cleared, incrementing missing_packets.
Part two: on any frame with timestamp 0 the player loop plays the PCM
directly and advances the out-of-sequence minder, leaving the whole sync
statistics state — the statistics ring, its counters and sums, the
previous-error registers — and the consecutive out-of-sync counter
untouched, issuing no flush. -/
theorem c3_filler_no_sync :
    (∀ (fs : Nat) (s : PlayerState),
      (s.audio_buffer (BUFIDX s.ab_read)).ready = false →
      (buffer_get_frame_tail fs s).2.timestamp = 0 ∧
        (buffer_get_frame_tail fs s).2.ready = false ∧
        (buffer_get_frame_tail fs s).2.data = List.replicate (2 * fs) 0 ∧
        (buffer_get_frame_tail fs s).1.missing_packets = s.missing_packets + 1) ∧
    (∀ (cfg : ThreadConfig) (inp : ThreadInputs) (st : PThreadState) (f : abuf_t),
      f.timestamp = 0 →
      (processFrame cfg inp st f).number_of_statistics = st.number_of_statistics ∧
        (processFrame cfg inp st f).oldest_statistic = st.oldest_statistic ∧
        (processFrame cfg inp st f).newest_statistic = st.newest_statistic ∧
        (processFrame cfg inp st f).statistics = st.statistics ∧
        (processFrame cfg inp st f).tsum_of_sync_errors = st.tsum_of_sync_errors ∧
        (processFrame cfg inp st f).tsum_of_corrections = st.tsum_of_corrections ∧
        (processFrame cfg inp st f).tsum_of_insertions_and_deletions =
          st.tsum_of_insertions_and_deletions ∧
        (processFrame cfg inp st f).tsum_of_drifts = st.tsum_of_drifts ∧
        (processFrame cfg inp st f).previous_sync_error = st.previous_sync_error ∧
        (processFrame cfg inp st f).previous_correction = st.previous_correction ∧
        (processFrame cfg inp st f).session_corrections = st.session_corrections ∧
        (processFrame cfg inp st f).sync_error_out_of_bounds =
          st.sync_error_out_of_bounds ∧
        (processFrame cfg inp st f).flush_calls = st.flush_calls ∧
        (processFrame cfg inp st f).plays = st.plays ++ [(f.data, cfg.frame_size)] ∧
        (processFrame cfg inp st f).last_seqno_read =
          ((SUCCESSOR (st.last_seqno_read % 65536).toNat : Nat) : Int) ∧
        (processFrame cfg inp st f).play_number = st.play_number + 1) := by
  constructor
  · intro fs s hready
    unfold buffer_get_frame_tail
    dsimp only
    by_cases hb : s.ab_buffering = false
    · rw [if_pos hb]
      have hp := resend_scan_preserves
        (resend_offsets ((seq_diff s.ab_read s.ab_read s.ab_write).tdiv 2)) s
      rw [hp.1, hp.2.1, if_pos hready, if_pos hready]
      exact ⟨rfl, rfl, rfl, by rw [hp.2.2]⟩
    · rw [if_neg hb, if_pos hready, if_pos hready]
      exact ⟨rfl, rfl, rfl, rfl⟩
  · intro cfg inp st f hts
    unfold processFrame
    dsimp only
    rw [if_pos hts]
    split
    · exact ⟨rfl, rfl, rfl, rfl, rfl, rfl, rfl, rfl, rfl, rfl, rfl, rfl, rfl, rfl,
        rfl, rfl⟩
    · exact ⟨rfl, rfl, rfl, rfl, rfl, rfl, rfl, rfl, rfl, rfl, rfl, rfl, rfl, rfl,
        rfl, rfl⟩

/-- A concrete thread state for exercising the filler path. -/
def c3_tstate : PThreadState :=
  { last_seqno_read := -1, sync_error_out_of_bounds := 2,
    number_of_statistics := 0, oldest_statistic := 0, newest_statistic := 0,
    statistics := fun _ => { sync_error := 0, correction := 0, drift := 0 },
    tsum_of_sync_errors := 0, tsum_of_corrections := 0,
    tsum_of_insertions_and_deletions := 0, tsum_of_drifts := 0,
    previous_sync_error := 0, previous_correction := 0, session_corrections := 0,
    play_number := 0, at_least_one_frame_seen := false,
    minimum_dac_queue_size := 1000000, minimum_buffer_occupancy := 512,
    maximum_buffer_occupancy := 0, fix_volume := 65536, lcg := 12345, dv_junk := 0,
    plays := [], flush_calls := [] }

/-- A concrete configuration and tick inputs for the filler path. -/
def c3_cfg : ThreadConfig :=
  { latency := 88200, tolerance := 88, resyncthreshold := 2205,
    has_delay := true, frame_size := 2 }

/-- Concrete tick inputs. -/
def c3_inp : ThreadInputs :=
  { reference_timestamp := 10000, reference_timestamp_time := 77,
    local_time_now := 99, current_delay_raw := 6000,
    first_packet_time_to_play := 3, buffer_occupancy := 5,
    rand_rate := 0, rand_stuff := 0 }

/-- A filler frame as produced by buffer_get_frame for a missing packet. -/
def c3_frame : abuf_t :=
  { ready := false, timestamp := 0, sequence_number := 0, data := [0, 0, 0, 0] }

/-- C3 (witness). The filler production on the fresh state and the
no-sync-effect of processing a timestamp-0 frame, at concrete inputs. -/
theorem c3_witness :
    (((initState true).audio_buffer (BUFIDX (initState true).ab_read)).ready = false ∧
        c3_frame.timestamp = 0) ∧
      ((buffer_get_frame_tail 2 (initState true)).2.timestamp = 0 ∧
        (buffer_get_frame_tail 2 (initState true)).2.data = [0, 0, 0, 0] ∧
        (buffer_get_frame_tail 2 (initState true)).1.missing_packets = 1) ∧
      ((processFrame c3_cfg c3_inp c3_tstate c3_frame).sync_error_out_of_bounds = 2 ∧
        (processFrame c3_cfg c3_inp c3_tstate c3_frame).number_of_statistics = 0 ∧
        (processFrame c3_cfg c3_inp c3_tstate c3_frame).statistics =
          c3_tstate.statistics ∧
        (processFrame c3_cfg c3_inp c3_tstate c3_frame).flush_calls = [] ∧
        (processFrame c3_cfg c3_inp c3_tstate c3_frame).plays = [([0, 0, 0, 0], 2)]) := by
  have h1 := c3_filler_no_sync.1 2 (initState true) (by decide)
  have h2 := c3_filler_no_sync.2 c3_cfg c3_inp c3_tstate c3_frame (by decide)
  refine ⟨⟨by decide, by decide⟩,
    ⟨h1.1, h1.2.2.1.trans (by decide), h1.2.2.2.trans (by decide)⟩,
    h2.2.2.2.2.2.2.2.2.2.2.2.1.trans (by decide),
    h2.1.trans (by decide),
    h2.2.2.2.1,
    h2.2.2.2.2.2.2.2.2.2.2.2.2.1.trans (by decide),
    h2.2.2.2.2.2.2.2.2.2.2.2.2.2.1.trans (by decide)⟩
